import Mathlib

set_option maxRecDepth 8000

/-!
Shallow embedding of the `my_digital_being` tweet-posting code:

* `activities/activity_post_recent_memory_tweet.py` (`PostRecentMemoriesTweetActivity`)
* `activities/activity_post_a_tweet.py` (`PostTweetActivity`)
* `skills/skill_x_api.py` (`XAPISkill`)
* `utils/twitter_utils.py` (`upload_image_to_twitter`)

Python strings are modelled as Lean `String`s (sequences of `Char`s, so `len`
agrees with `String.length`); the Python string methods used by the code
(`startswith`, `strip`, `split`, slicing) are re-implemented below by
structural recursion over `String.data` so that every definition evaluates
inside the kernel.

Python dicts that cross the external-call boundary are modelled as structures
whose fields are the exact keys the code reads, with `Option` marking a
possibly-absent key; `dict.get(k, d)` becomes `Option.getD`, and a plain
`d[k]` subscript on a missing key becomes a raised `KeyError`, modelled with
`Except String`.  External collaborators (chat completion backend, image
generation backend, Composio posting/upload API, HTTP download, the memory
store, and the Python builtins `eval` / `urllib.parse.urlparse` applied to
externally produced strings) are oracles collected in an `Env` record; an
`Except.error` outcome of an oracle models the call raising an exception.
Every external call an execution performs is recorded in an `ExtCall` trace.
-/

/-! ## Python string primitives used by the code -/

/-- Model of Python `pre + ...` check `s.startswith(pre)`. -/
def pyStartsWith (pre s : String) : Bool := pre.data.isPrefixOf s.data

/-- Model of Python `s.strip()`: drop whitespace from both ends. -/
def pyStrip (s : String) : String :=
  String.mk (((s.data.dropWhile Char.isWhitespace).reverse.dropWhile Char.isWhitespace).reverse)

/-- Split a character list at every occurrence of the two-character separator
`a b`, as Python `str.split` does for a two-character separator. -/
def splitOn2 (a b : Char) : List Char → List Char → List (List Char)
  | [], acc => [acc.reverse]
  | [c], acc => [(c :: acc).reverse]
  | c :: d :: rest, acc =>
    if c = a && d = b then acc.reverse :: splitOn2 a b rest []
    else splitOn2 a b (d :: rest) (c :: acc)

/-- Model of Python `s.split("=>")`. -/
def pySplitArrow (s : String) : List String :=
  (splitOn2 '=' '>' s.data []).map String.mk

/-- Model of Python slicing plus concatenation `s[:n] + t`: `String.mk (s.data.take n)`. -/
def pySlice (s : String) (n : Nat) : String := String.mk (s.data.take n)

/-- Truthiness of a possibly-absent Python string value (`None` and `""` are falsy). -/
def strTruthy : Option String → Bool
  | some s => s ≠ ""
  | none => false

/-- Model of Python `a or b` on two possibly-absent string values. -/
def pyOrStr (a b : Option String) : Option String :=
  if strTruthy a then a else b

/-- Model of Python `response.get(k1, response.get(k2))` on two optional keys. -/
def getOrKey (a b : Option Bool) : Option Bool :=
  match a with
  | some v => some v
  | none => b

/-! ## Data model -/

/-- Projections of the `data` dict of a stored activity record, i.e. the keys
the two activities actually read from it: `repr` is the Python `str()` of the
whole dict (used when formatting a digest line `f"TYPE => DATA"`),
`content` is `data.get("content", "")`, and `recent_memories_used` is
`data.get("recent_memories_used", [])`. -/
structure ActData where
  repr : String := ""
  content : String := ""
  recent_memories_used : List String := []
deriving DecidableEq, Repr

/-- Modelled from the spec: an `ActivityRecord` of the external memory store,
`\x7bactivity_type: string, success: bool, data: mapping\x7d` (the timestamp is
never read by this code and is omitted). -/
structure ActivityRecord where
  activity_type : String
  success : Bool
  data : ActData := {}
deriving DecidableEq, Repr

/-- Innermost `data` dict of a Composio post response (`response["data"]["data"]`). -/
structure InnerData where
  id : Option String := none
deriving DecidableEq, Repr

/-- The `data` dict of a Composio response. -/
structure RespData where
  media_id : Option String := none
  data : Option InnerData := none
deriving DecidableEq, Repr

/-- Response dict returned by `composio_manager._toolset.execute_action`,
restricted to the keys the code reads.  Each `Option Bool` field carries the
truthiness of the corresponding key when present. -/
structure ComposioResponse where
  success : Option Bool := none
  successful : Option Bool := none
  successfull : Option Bool := none
  media_id : Option String := none
  data : Option RespData := none
  error : Option String := none
deriving DecidableEq, Repr

/-- The `data` dict of a chat-completion response. -/
structure ChatData where
  content : Option String := none
deriving DecidableEq, Repr

/-- Response dict of `chat_skill.get_chat_completion`. -/
structure ChatResponse where
  success : Option Bool := none
  error : Option String := none
  data : Option ChatData := none
deriving DecidableEq, Repr

/-- The `image_data` dict of an image-generation response. -/
structure ImgData where
  url : Option String := none
deriving DecidableEq, Repr

/-- Response dict of `ImageGenerationSkill.generate_image`. -/
structure ImageResult where
  success : Option Bool := none
  image_data : Option ImgData := none
deriving DecidableEq, Repr

/-- Result of `urllib.parse.urlparse`: the two components the code checks. -/
structure ParsedUrl where
  scheme : String := ""
  netloc : String := ""
deriving DecidableEq, Repr

/-- The `image_data` entry of an `eval`-ed digest dict. -/
structure EvalImageData where
  url : Option String := none
deriving DecidableEq, Repr

/-- Result of `eval` on the serialized dict embedded in a digest entry,
restricted to the keys `_extract_drawing_urls` reads. -/
structure EvalDict where
  image_data : Option EvalImageData := none
deriving DecidableEq, Repr

/-- One external call performed during an execution. -/
inductive ExtCall
  | chatInitCall
  | chatCompletionCall (prompt : String)
  | mediaUploadCall (url : String)
  | postSubmitCall (text : String) (mediaIds : List String)
deriving DecidableEq, Repr

/-- Oracles describing one behaviour of every external collaborator.
`Except.error e` models the call raising an exception whose `str()` is `e`. -/
structure Env where
  chatInit : Except String Bool
  memory : List ActivityRecord
  personality : List (String × String)
  objectives : List (String × String)
  evalData : String → Option EvalDict
  urlparse : String → ParsedUrl
  chatCompletion : String → Except String ChatResponse
  canGenerate : Except String Bool
  generateImage : String → Except String ImageResult
  download : String → Except String Bool
  uploadAction : String → Except String ComposioResponse
  postAction : String → List String → Except String ComposioResponse

/-- Modelled from the spec: the framework's `ActivityResult` record
(`framework/activity_decorator.py` is not part of this repository).  The
`data_*` fields are the keys the two activities store in `data`; `metadata`
is never read back and is omitted. -/
structure ActivityResult where
  success : Bool
  data_message : Option String := none
  data_tweet_id : Option String := none
  data_content : Option String := none
  data_recent_memories_used : Option (List String) := none
  error : Option String := none
deriving DecidableEq, Repr

/-- Modelled from the spec: the external memory store read interface
`get_recent(limit, offset) -> ordered sequence of ActivityRecord`, newest
first. -/
def getRecentActivities (memory : List ActivityRecord) (limit offset : Nat) :
    List ActivityRecord :=
  (memory.drop offset).take limit

/-! ## PostRecentMemoriesTweetActivity: digest builder -/

/-- Value of `self.ignored_activity_types` set in
`PostRecentMemoriesTweetActivity.__init__`. -/
def ignoredActivityTypes : List String :=
  ["PostRecentMemoriesTweetActivity", "PostTweetActivity"]

/-- Digest line `f"TYPE => DATA"` built by `_get_recent_memories`. -/
def formatSummary (act : ActivityRecord) : String :=
  act.activity_type ++ " => " ++ act.data.repr

/-- Loop body of `_get_recent_memories`: append each non-ignored record's
summary, breaking as soon as the accumulated list reaches `limit`. -/
def gatherLoop (limit : Nat) : List ActivityRecord → List String → List String
  | [], acc => acc
  | act :: rest, acc =>
    if ignoredActivityTypes.contains act.activity_type then
      gatherLoop limit rest acc
    else
      let acc2 := acc ++ [formatSummary act]
      if limit ≤ acc2.length then acc2 else gatherLoop limit rest acc2

/-- Embedding of `PostRecentMemoriesTweetActivity._get_recent_memories`. -/
def getRecentMemories (memory : List ActivityRecord) (limit : Nat) : List String :=
  gatherLoop limit (getRecentActivities memory 50 0) []

/-- Loop of `_get_memories_used_last_time`: first successful
`PostRecentMemoriesTweetActivity` record whose stored
`recent_memories_used` list is non-empty (`if used: return used`). -/
def usedLoop : List ActivityRecord → List String
  | [] => []
  | act :: rest =>
    if act.activity_type == "PostRecentMemoriesTweetActivity" && act.success then
      let used := act.data.recent_memories_used
      if used.isEmpty then usedLoop rest else used
    else usedLoop rest

/-- Embedding of `PostRecentMemoriesTweetActivity._get_memories_used_last_time`. -/
def getMemoriesUsedLastTime (memory : List ActivityRecord) : List String :=
  usedLoop (getRecentActivities memory 10 0)

/-! ## PostRecentMemoriesTweetActivity: prompt building and URL extraction -/

/-- Python `f"{k}: {v}"` lines joined by newlines, for a dict's items. -/
def kvLines (kvs : List (String × String)) : String :=
  String.intercalate "\n" (kvs.map (fun kv => kv.1 ++ ": " ++ kv.2))

/-- Embedding of `PostRecentMemoriesTweetActivity._build_chat_prompt`. -/
def prmtBuildChatPrompt (personality objectives : List (String × String))
    (newMemories : List String) : String :=
  let personalityStr := kvLines personality
  let objectivesStr :=
    if objectives.isEmpty then "(No objectives specified)" else kvLines objectives
  let memoriesStr :=
    if newMemories.isEmpty then "(No new memories)"
    else String.intercalate "\n" (newMemories.map (fun txt => "- " ++ txt))
  "Our digital being has these personality traits:\n" ++ personalityStr ++
    "\n\nIt also has these objectives:\n" ++ objectivesStr ++
    "\n\nHere are some new memories:\n" ++ memoriesStr ++
    "\n\nPlease craft a short tweet (under 280 chars) that references these memories, " ++
    "reflects the personality and objectives, and ensures it\x27s not repetitive or dull. " ++
    "Keep it interesting, cohesive, and mindful of the overall tone.\n"

/-- Embedding of the per-entry body of `_extract_drawing_urls`: the value the
entry contributes to the result, `none` when the entry is skipped (no
`DrawActivity =>` prefix, `IndexError` on the split, `eval` raising, missing
`image_data`/`url` keys, or a URL without both scheme and netloc).  Exceptions
inside the loop body are caught by its `try`/`except` and turn into a skip. -/
def extractOne (evalData : String → Option EvalDict) (urlparse : String → ParsedUrl)
    (memory : String) : Option String :=
  if pyStartsWith "DrawActivity =>" memory then
    match (pySplitArrow memory)[1]? with
    | none => none
    | some piece =>
      let dataStr := pyStrip piece
      match evalData dataStr with
      | none => none
      | some d =>
        match d.image_data with
        | none => none
        | some idata =>
          match idata.url with
          | none => none
          | some url =>
            let r := urlparse url
            if r.scheme ≠ "" && r.netloc ≠ "" then some url else none
  else none

/-- Embedding of `PostRecentMemoriesTweetActivity._extract_drawing_urls`:
the `for` loop over `memories`, each iteration appending at most one URL and
`continue`-ing past failures. -/
def extractDrawingUrls (evalData : String → Option EvalDict)
    (urlparse : String → ParsedUrl) : List String → List String
  | [] => []
  | memory :: rest =>
    match extractOne evalData urlparse memory with
    | some url => url :: extractDrawingUrls evalData urlparse rest
    | none => extractDrawingUrls evalData urlparse rest

/-! ## Tweet text truncation -/

/-- Value of `self.max_length` in `PostRecentMemoriesTweetActivity.__init__`. -/
def prmtMaxLength : Nat := 280

/-- Value of `self.max_length` in `PostTweetActivity.__init__`. -/
def ptaMaxLength : Nat := 500

/-- Embedding of the truncation step shared by both activities:
`if len(t) > max_length: t = t[: max_length - 3] + "..."`. -/
def truncateTweet (maxLength : Nat) (text : String) : String :=
  if text.length > maxLength then pySlice text (maxLength - 3) ++ "..." else text

/-! ## XAPISkill (skills/skill_x_api.py) -/

/-- Config dict handed to `XAPISkill.__init__`, restricted to the keys it reads. -/
structure XConfig where
  enabled : Option Bool := none
  rate_limit : Option Nat := none
  cooldown_period : Option Nat := none
  twitter_username : Option String := none
deriving DecidableEq, Repr

/-- State of an `XAPISkill` instance. -/
structure XAPISkill where
  enabled : Bool
  rate_limit : Nat
  cooldown_period : Nat
  posts_count : Nat
  twitter_username : String
deriving DecidableEq, Repr

/-- Embedding of `XAPISkill.__init__`: defaults applied by `config.get`. -/
def mkXAPISkill (config : XConfig) : XAPISkill :=
  { enabled := config.enabled.getD false
    rate_limit := config.rate_limit.getD 100
    cooldown_period := config.cooldown_period.getD 300
    posts_count := 0
    twitter_username := config.twitter_username.getD "YourUserName" }

/-- Embedding of `XAPISkill.can_post`. -/
def XAPISkill.canPost (s : XAPISkill) : Bool :=
  s.enabled && s.posts_count < s.rate_limit

/-- Embedding of `XAPISkill.upload_media`: download, upload via Composio,
read the media id; every exception is caught and turned into `None`. -/
def uploadMedia (env : Env) (url : String) : Option String :=
  match env.download url with
  | .error _ => none
  | .ok false => none
  | .ok true =>
    match env.uploadAction url with
    | .error _ => none
    | .ok resp =>
      if (resp.successful == some true) || (resp.successfull == some true) then
        let mediaId := pyOrStr resp.media_id (resp.data.bind RespData.media_id)
        if strTruthy mediaId then mediaId else none
      else none

/-- Result dict returned by `XAPISkill.post_tweet`. -/
structure XPostResult where
  success : Bool
  error : Option String := none
  tweet_id : Option String := none
  content : Option String := none
  media_count : Nat := 0
deriving DecidableEq, Repr

/-- Embedding of `XAPISkill.post_tweet`: rate-limit gate, media upload loop,
single post submission, success-key handling, post counter update.  Also
returns the updated skill state and the trace of external calls made. -/
def xPostTweet (skill : XAPISkill) (env : Env) (text : String)
    (mediaUrls : List String) : XPostResult × XAPISkill × List ExtCall :=
  if !skill.canPost then
    ({ success := false, error := some "Rate limit exceeded or skill disabled" },
     skill, [])
  else
    let mediaIds := mediaUrls.filterMap (uploadMedia env)
    let calls := mediaUrls.map ExtCall.mediaUploadCall
    match env.postAction text mediaIds with
    | .error e =>
      ({ success := false, error := some e }, skill,
       calls ++ [ExtCall.postSubmitCall text mediaIds])
    | .ok resp =>
      match getOrKey resp.success resp.successfull with
      | some true =>
        ({ success := true
           tweet_id := (resp.data.bind RespData.data).bind InnerData.id
           content := some text
           media_count := mediaIds.length },
         { skill with posts_count := skill.posts_count + 1 },
         calls ++ [ExtCall.postSubmitCall text mediaIds])
      | _ =>
        ({ success := false
           error := some (resp.error.getD "Unknown or missing success key") },
         skill, calls ++ [ExtCall.postSubmitCall text mediaIds])

/-! ## utils/twitter_utils.py -/

/-- Embedding of `upload_image_to_twitter`: like `XAPISkill.upload_media` but
returning a singleton list on success and `[]` otherwise; every exception is
caught and turned into `[]`. -/
def uploadImageToTwitter (env : Env) (imageUrl : String) : List String :=
  match env.download imageUrl with
  | .error _ => []
  | .ok false => []
  | .ok true =>
    match env.uploadAction imageUrl with
    | .error _ => []
    | .ok resp =>
      if (resp.successful == some true) || (resp.successfull == some true) then
        match pyOrStr resp.media_id (resp.data.bind RespData.media_id) with
        | some mediaId => if mediaId ≠ "" then [mediaId] else []
        | none => []
      else []

/-! ## PostRecentMemoriesTweetActivity.execute -/

/-- Value of `self.twitter_username` in `PostRecentMemoriesTweetActivity.__init__`. -/
def prmtTwitterUsername : String := "YourUserName"

/-- Local `recent_memories` of `PostRecentMemoriesTweetActivity.execute`. -/
def prmtAll (env : Env) (numToFetch : Nat) : List String :=
  getRecentMemories env.memory numToFetch

/-- Local `used_memories_last_time` of `PostRecentMemoriesTweetActivity.execute`. -/
def prmtUsed (env : Env) : List String :=
  getMemoriesUsedLastTime env.memory

/-- Local `new_memories` of `PostRecentMemoriesTweetActivity.execute`:
`[m for m in recent_memories if m not in used_memories_last_time]`. -/
def prmtNew (env : Env) (numToFetch : Nat) : List String :=
  (prmtAll env numToFetch).filter (fun m => !(prmtUsed env).contains m)

/-- Body of the `try` block of `PostRecentMemoriesTweetActivity.execute`;
an `Except.error` outcome is an exception escaping to the outer handler.
`numToFetch` is the constructor parameter `num_activities_to_fetch`
(default 10). -/
def prmtExecuteCore (env : Env) (numToFetch : Nat) :
    Except String ActivityResult × List ExtCall :=
  match env.chatInit with
  | .error e => (.error e, [ExtCall.chatInitCall])
  | .ok false =>
    (.ok { success := false, error := some "Failed to initialize chat skill" },
     [ExtCall.chatInitCall])
  | .ok true =>
    let recentMemories := prmtAll env numToFetch
    if recentMemories.isEmpty then
      (.ok { success := true, data_message := some "No recent memories to share." },
       [ExtCall.chatInitCall])
    else
      let newMemories := prmtNew env numToFetch
      if newMemories.isEmpty then
        (.ok { success := true, data_message := some "No new memories to tweet." },
         [ExtCall.chatInitCall])
      else
        let promptText := prmtBuildChatPrompt env.personality env.objectives newMemories
        let drawingUrls := extractDrawingUrls env.evalData env.urlparse newMemories
        match env.chatCompletion promptText with
        | .error e =>
          (.error e, [ExtCall.chatInitCall, ExtCall.chatCompletionCall promptText])
        | .ok cresp =>
          let tr := [ExtCall.chatInitCall, ExtCall.chatCompletionCall promptText]
          match cresp.success with
          | none => (.error "KeyError: \x27success\x27", tr)
          | some sv =>
            if !sv then
              match cresp.error with
              | none => (.error "KeyError: \x27error\x27", tr)
              | some e => (.ok { success := false, error := some e }, tr)
            else
              match cresp.data with
              | none => (.error "KeyError: \x27data\x27", tr)
              | some cdata =>
                match cdata.content with
                | none => (.error "KeyError: \x27content\x27", tr)
                | some content =>
                  let tweetText := truncateTweet prmtMaxLength (pyStrip content)
                  let xApi := mkXAPISkill
                    { enabled := some true, twitter_username := some prmtTwitterUsername }
                  match xPostTweet xApi env tweetText drawingUrls with
                  | (postResult, _, postCalls) =>
                    if !postResult.success then
                      (.ok { success := false
                             error := some (postResult.error.getD
                               "Unknown error posting tweet via Composio") },
                       tr ++ postCalls)
                    else
                      (.ok { success := true
                             data_tweet_id := postResult.tweet_id
                             data_content := some tweetText
                             data_recent_memories_used := some newMemories },
                       tr ++ postCalls)

/-- Embedding of `PostRecentMemoriesTweetActivity.execute`: the `try` body
wrapped by the outermost `except Exception` handler, which converts any
exception into `ActivityResult(success=False, error=str(e))`. -/
def prmtExecute (env : Env) (numToFetch : Nat) : ActivityResult × List ExtCall :=
  match prmtExecuteCore env numToFetch with
  | (.ok r, tr) => (r, tr)
  | (.error e, tr) => ({ success := false, error := some e }, tr)

/-! ## PostTweetActivity (activity_post_a_tweet.py) -/

/-- Loop of `_get_recent_tweets`: contents of successful `PostTweetActivity`
records with a truthy (non-empty) `content`. -/
def ptaRecentLoop : List ActivityRecord → List String
  | [] => []
  | act :: rest =>
    if act.activity_type == "PostTweetActivity" && act.success then
      let body := act.data.content
      if body ≠ "" then body :: ptaRecentLoop rest else ptaRecentLoop rest
    else ptaRecentLoop rest

/-- Embedding of `PostTweetActivity._get_recent_tweets` (`tweets[:limit]`). -/
def ptaGetRecentTweets (memory : List ActivityRecord) (limit : Nat) : List String :=
  (ptaRecentLoop (getRecentActivities memory 50 0)).take limit

/-- Embedding of `PostTweetActivity._build_chat_prompt`. -/
def ptaBuildChatPrompt (personality : List (String × String))
    (recentTweets : List String) : String :=
  let personalityStr := kvLines personality
  let lastTweetsStr :=
    if recentTweets.isEmpty then "(No recent tweets)"
    else String.intercalate "\n" (recentTweets.map (fun txt => "- " ++ txt))
  "Our digital being has these personality traits:\n" ++ personalityStr ++
    "\n\nHere are recent tweets:\n" ++ lastTweetsStr ++
    "\n\nWrite a new short tweet (under 280 chars)" ++
    "but not repeating old tweets. Avoid hashtags or repeated phrases.\n"

/-- Embedding of `PostTweetActivity._build_image_prompt`. -/
def ptaBuildImagePrompt (tweetText : String)
    (personality : List (String × String)) : String :=
  "Our digital being has these personality traits:\n" ++ kvLines personality ++
    "\n\nAnd is creating a tweet with the text: " ++ tweetText ++
    "\n\nGenerate a simple, whimsical and fun image that represents the story " ++
    "of the tweet and reflects the personality traits. " ++
    "Do not include the tweet text in the image."

/-- Embedding of `PostTweetActivity._generate_image_for_tweet`: returns
`(image_prompt, media_ids)`; an exception raised by the image skill escapes
to `execute`'s handler. -/
def ptaGenerateImageForTweet (env : Env) (tweetText : String)
    (personality : List (String × String)) :
    Except String (Option String × List String) :=
  match env.canGenerate with
  | .error e => .error e
  | .ok false => .ok (none, [])
  | .ok true =>
    let imagePrompt := ptaBuildImagePrompt tweetText personality
    match env.generateImage imagePrompt with
    | .error e => .error e
    | .ok ir =>
      match ir.success, ir.image_data.bind ImgData.url with
      | some true, some url =>
        if url ≠ "" then .ok (some imagePrompt, uploadImageToTwitter env url)
        else .ok (none, [])
      | _, _ => .ok (none, [])

/-- Result dict returned by `PostTweetActivity._post_tweet_via_composio`. -/
structure PtaPostResult where
  success : Bool
  error : Option String := none
  tweet_id : Option String := none
deriving DecidableEq, Repr

/-- Embedding of `PostTweetActivity._post_tweet_via_composio`: one Composio
`execute_action` call, dual-spelling success-key read, nested tweet id
extraction; its own `except` handler converts an exception into a failure
dict. -/
def ptaPostTweetViaComposio (env : Env) (text : String) (mediaIds : List String) :
    PtaPostResult × List ExtCall :=
  match env.postAction text mediaIds with
  | .error e =>
    ({ success := false, error := some e }, [ExtCall.postSubmitCall text mediaIds])
  | .ok resp =>
    match getOrKey resp.success resp.successfull with
    | some true =>
      ({ success := true, tweet_id := (resp.data.bind RespData.data).bind InnerData.id },
       [ExtCall.postSubmitCall text mediaIds])
    | _ =>
      ({ success := false
         error := some (resp.error.getD "Unknown or missing success key") },
       [ExtCall.postSubmitCall text mediaIds])

/-- Body of the `try` block of `PostTweetActivity.execute`. -/
def ptaExecuteCore (env : Env) : Except String ActivityResult × List ExtCall :=
  match env.chatInit with
  | .error e => (.error e, [ExtCall.chatInitCall])
  | .ok false =>
    (.ok { success := false, error := some "Failed to initialize chat skill" },
     [ExtCall.chatInitCall])
  | .ok true =>
    let recentTweets := ptaGetRecentTweets env.memory 10
    let promptText := ptaBuildChatPrompt env.personality recentTweets
    match env.chatCompletion promptText with
    | .error e =>
      (.error e, [ExtCall.chatInitCall, ExtCall.chatCompletionCall promptText])
    | .ok cresp =>
      let tr := [ExtCall.chatInitCall, ExtCall.chatCompletionCall promptText]
      match cresp.success with
      | none => (.error "KeyError: \x27success\x27", tr)
      | some sv =>
        if !sv then
          match cresp.error with
          | none => (.error "KeyError: \x27error\x27", tr)
          | some e => (.ok { success := false, error := some e }, tr)
        else
          match cresp.data with
          | none => (.error "KeyError: \x27data\x27", tr)
          | some cdata =>
            match cdata.content with
            | none => (.error "KeyError: \x27content\x27", tr)
            | some content =>
              let tweetText := truncateTweet ptaMaxLength (pyStrip content)
              match ptaGenerateImageForTweet env tweetText env.personality with
              | .error e => (.error e, tr)
              | .ok (_, mediaIds) =>
                match ptaPostTweetViaComposio env tweetText mediaIds with
                | (postResult, postCalls) =>
                  if !postResult.success then
                    (.ok { success := false
                           error := some (postResult.error.getD
                             "Unknown error posting tweet via Composio") },
                     tr ++ postCalls)
                  else
                    (.ok { success := true
                           data_tweet_id := postResult.tweet_id
                           data_content := some tweetText },
                     tr ++ postCalls)

/-- Embedding of `PostTweetActivity.execute`: the `try` body wrapped by the
outermost `except Exception` handler. -/
def ptaExecute (env : Env) : ActivityResult × List ExtCall :=
  match ptaExecuteCore env with
  | (.ok r, tr) => (r, tr)
  | (.error e, tr) => ({ success := false, error := some e }, tr)

/-! ## Digest builder: characterization of `_get_recent_memories` -/

theorem gatherLoop_eq (limit : Nat) :
    ∀ (l : List ActivityRecord) (acc : List String), acc.length < limit →
    gatherLoop limit l acc =
      acc ++ (((l.filter (fun a => !ignoredActivityTypes.contains a.activity_type)).map
        formatSummary).take (limit - acc.length))
  | [], acc, _ => by simp [gatherLoop]
  | act :: rest, acc, h => by
    unfold gatherLoop
    by_cases hig : ignoredActivityTypes.contains act.activity_type = true
    · have higm : act.activity_type ∈ ignoredActivityTypes := List.elem_iff.mp hig
      simp only [hig, if_true]
      rw [gatherLoop_eq limit rest acc h]
      simp [List.filter_cons, higm]
    · have higm : act.activity_type ∉ ignoredActivityTypes := by
        simpa [List.elem_iff] using hig
      simp only [hig, if_false, Bool.not_eq_true]
      by_cases hbr : limit ≤ (acc ++ [formatSummary act]).length
      · simp only [hbr, if_true]
        have hone : limit - acc.length = 1 := by
          simp only [List.length_append, List.length_cons, List.length_nil] at hbr
          omega
        simp [List.filter_cons, higm, hone]
      · simp only [hbr, if_false]
        have h2 : (acc ++ [formatSummary act]).length < limit := by omega
        rw [gatherLoop_eq limit rest (acc ++ [formatSummary act]) h2]
        have hlen : (acc ++ [formatSummary act]).length = acc.length + 1 := by simp
        have hk : limit - acc.length = (limit - (acc.length + 1)) + 1 := by
          simp only [List.length_append, List.length_cons, List.length_nil] at hbr
          omega
        simp [List.filter_cons, higm, hlen, hk, List.take_succ_cons]

theorem getRecentMemories_eq (memory : List ActivityRecord) (limit : Nat)
    (h : 1 ≤ limit) :
    getRecentMemories memory limit =
      (((memory.take 50).filter (fun a => !ignoredActivityTypes.contains a.activity_type)).map
        formatSummary).take limit := by
  unfold getRecentMemories getRecentActivities
  rw [List.drop_zero, gatherLoop_eq limit (memory.take 50) [] (by simpa using h)]
  simp

/-- Claim C3, counterexample: with requested count `N = 0` and a memory
containing one non-excluded record, `_get_recent_memories` returns one digest
entry, not at most `0`, because the loop breaks only after appending. -/
theorem recent_memories_limit_counterexample :
    ¬ ((getRecentMemories [{ activity_type := "DrawActivity", success := true }] 0).length ≤ 0) := by
  decide

/-- Claim C3 (amended): for every memory store contents, requested count
`N ≥ 1`, and the configured excluded-type set, the digest builder scans the 50
most recent records newest-first, keeps exactly the non-excluded ones in
order, formats each as a digest string, and stops after `N` matches; hence it
returns at most `N` entries and every returned entry is the formatting of a
non-excluded record among the 50 most recent. -/
theorem recent_memories_amended (memory : List ActivityRecord) (limit : Nat)
    (h : 1 ≤ limit) :
    getRecentMemories memory limit =
      (((memory.take 50).filter (fun a => !ignoredActivityTypes.contains a.activity_type)).map
        formatSummary).take limit
    ∧ (getRecentMemories memory limit).length ≤ limit
    ∧ ∀ s ∈ getRecentMemories memory limit, ∃ a, a ∈ memory.take 50 ∧
        a.activity_type ∉ ignoredActivityTypes ∧ s = formatSummary a := by
  refine ⟨getRecentMemories_eq memory limit h, ?_, ?_⟩
  · rw [getRecentMemories_eq memory limit h, List.length_take]
    exact Nat.min_le_left _ _
  · intro s hs
    rw [getRecentMemories_eq memory limit h] at hs
    obtain ⟨a, ha, rfl⟩ := List.mem_map.mp (List.mem_of_mem_take hs)
    have hm := List.mem_filter.mp ha
    exact ⟨a, hm.1, by simpa [List.elem_iff] using hm.2, rfl⟩

/-- Witness for `recent_memories_amended` at a concrete memory and `N = 1`. -/
theorem recent_memories_amended_witness :
    (getRecentMemories
      [{ activity_type := "DrawActivity", success := true },
       { activity_type := "PostTweetActivity", success := true }] 1).length ≤ 1 :=
  (recent_memories_amended _ 1 (by decide)).2.1

/-- Claim C4: for every generated tweet text and either activity's configured
length limit (280 for `PostRecentMemoriesTweetActivity`, 500 for
`PostTweetActivity`), a text longer than the limit is truncated to a text of
length exactly the limit ending in the ellipsis marker `"..."`, and a text
within the limit is posted unchanged. -/
theorem truncate_tweet_spec (text : String) (L : Nat)
    (hL : L = prmtMaxLength ∨ L = ptaMaxLength) :
    (L < text.length →
      (truncateTweet L text).length = L ∧ ∃ p, truncateTweet L text = p ++ "...") ∧
    (text.length ≤ L → truncateTweet L text = text) := by
  have hdata : text.data.length = text.length := rfl
  have h3 : 3 ≤ L := by
    rcases hL with rfl | rfl <;> simp [prmtMaxLength, ptaMaxLength]
  constructor
  · intro hgt
    have hc : text.length > L := hgt
    constructor
    · unfold truncateTweet
      rw [if_pos hc, String.length_append]
      have hml : (pySlice text (L - 3)).length = L - 3 := by
        unfold pySlice
        rw [String.length_mk, List.length_take]
        omega
      have hdots : ("..." : String).length = 3 := by decide
      omega
    · refine ⟨pySlice text (L - 3), ?_⟩
      unfold truncateTweet
      rw [if_pos hc]
  · intro hle
    unfold truncateTweet
    rw [if_neg (by omega)]

/-- Witness for `truncate_tweet_spec`: a 281-character text is cut to exactly
280 characters, and a 10-character text passes through unchanged. -/
theorem truncate_tweet_spec_witness :
    (280 < (String.mk (List.replicate 281 'a')).length ∧
      (truncateTweet 280 (String.mk (List.replicate 281 'a'))).length = 280) ∧
    ((String.mk (List.replicate 10 'b')).length ≤ 500 ∧
      truncateTweet 500 (String.mk (List.replicate 10 'b')) = String.mk (List.replicate 10 'b')) := by
  constructor
  · exact ⟨by decide, ((truncate_tweet_spec _ 280 (Or.inl rfl)).1 (by decide)).1⟩
  · exact ⟨by decide, (truncate_tweet_spec _ 500 (Or.inr rfl)).2 (by decide)⟩

/-! ## Unfolding lemmas for the two `execute` wrappers -/

theorem prmtExecute_ok (env : Env) (n : Nat) (r : ActivityResult) (tr : List ExtCall)
    (h : prmtExecuteCore env n = (Except.ok r, tr)) : prmtExecute env n = (r, tr) := by
  unfold prmtExecute
  rw [h]

theorem prmtExecute_err (env : Env) (n : Nat) (e : String) (tr : List ExtCall)
    (h : prmtExecuteCore env n = (Except.error e, tr)) :
    prmtExecute env n = ({ success := false, error := some e }, tr) := by
  unfold prmtExecute
  rw [h]

theorem ptaExecute_ok (env : Env) (r : ActivityResult) (tr : List ExtCall)
    (h : ptaExecuteCore env = (Except.ok r, tr)) : ptaExecute env = (r, tr) := by
  unfold ptaExecute
  rw [h]

theorem ptaExecute_err (env : Env) (e : String) (tr : List ExtCall)
    (h : ptaExecuteCore env = (Except.error e, tr)) :
    ptaExecute env = ({ success := false, error := some e }, tr) := by
  unfold ptaExecute
  rw [h]

/-! ## Branch analysis of the two `execute` bodies -/

theorem prmtCore_failure (env : Env) (n : Nat) (r : ActivityResult) (tr : List ExtCall)
    (h : prmtExecuteCore env n = (Except.ok r, tr)) (hs : r.success = false) :
    r.error.isSome = true := by
  simp only [prmtExecuteCore] at h
  repeat' split at h
  all_goals simp only [Prod.mk.injEq, Except.ok.injEq] at h
  all_goals first
    | (obtain ⟨rfl, rfl⟩ := h; simp_all)
    | simp_all

theorem ptaCore_failure (env : Env) (r : ActivityResult) (tr : List ExtCall)
    (h : ptaExecuteCore env = (Except.ok r, tr)) (hs : r.success = false) :
    r.error.isSome = true := by
  simp only [ptaExecuteCore] at h
  repeat' split at h
  all_goals simp only [Prod.mk.injEq, Except.ok.injEq] at h
  all_goals first
    | (obtain ⟨rfl, rfl⟩ := h; simp_all)
    | simp_all

theorem prmtCore_success (env : Env) (n : Nat) (r : ActivityResult) (tr : List ExtCall)
    (h : prmtExecuteCore env n = (Except.ok r, tr)) (hs : r.success = true) :
    r.data_message.isSome = true ∨
    (r.data_message = none ∧ r.data_recent_memories_used = some (prmtNew env n)) := by
  simp only [prmtExecuteCore] at h
  repeat' split at h
  all_goals simp only [Prod.mk.injEq, Except.ok.injEq] at h
  all_goals first
    | (obtain ⟨rfl, rfl⟩ := h; simp_all)
    | simp_all

theorem xPostTweet_trace (skill : XAPISkill) (env : Env) (text : String)
    (urls : List String) :
    ∀ c ∈ (xPostTweet skill env text urls).2.2,
      (∃ u, c = ExtCall.mediaUploadCall u) ∨
      ∃ ids, c = ExtCall.postSubmitCall text ids := by
  intro c hc
  simp only [xPostTweet] at hc
  repeat' split at hc
  · simp at hc
  all_goals
    simp only [List.mem_append, List.mem_map, List.mem_singleton] at hc
  all_goals
    rcases hc with ⟨u, _, rfl⟩ | rfl
  all_goals first
    | exact Or.inl ⟨u, rfl⟩
    | exact Or.inr ⟨_, rfl⟩

theorem prmtCore_trace (env : Env) (n : Nat) (res : Except String ActivityResult)
    (tr : List ExtCall) (h : prmtExecuteCore env n = (res, tr)) :
    tr = [ExtCall.chatInitCall] ∨
    ∃ rest, tr = ExtCall.chatInitCall ::
        ExtCall.chatCompletionCall
          (prmtBuildChatPrompt env.personality env.objectives (prmtNew env n)) :: rest ∧
      ∀ c ∈ rest, (∃ u, c = ExtCall.mediaUploadCall u) ∨
        ∃ s ids, c = ExtCall.postSubmitCall (truncateTweet prmtMaxLength (pyStrip s)) ids := by
  simp only [prmtExecuteCore] at h
  repeat' split at h
  all_goals simp only [Prod.mk.injEq] at h
  all_goals obtain ⟨h1, h2⟩ := h
  all_goals subst h2
  all_goals first
    | exact Or.inl rfl
    | (refine Or.inr ⟨[], rfl, ?_⟩
       simp)
    | (refine Or.inr ⟨_, rfl, ?_⟩
       intro c hc
       rcases xPostTweet_trace _ _ _ _ c hc with ⟨u, rfl⟩ | ⟨ids, rfl⟩
       · exact Or.inl ⟨u, rfl⟩
       · exact Or.inr ⟨_, ids, rfl⟩)

theorem ptaCore_trace (env : Env) (res : Except String ActivityResult)
    (tr : List ExtCall) (h : ptaExecuteCore env = (res, tr)) :
    tr = [ExtCall.chatInitCall] ∨
    ∃ rest, tr = ExtCall.chatInitCall ::
        ExtCall.chatCompletionCall
          (ptaBuildChatPrompt env.personality (ptaGetRecentTweets env.memory 10)) :: rest ∧
      ∀ c ∈ rest, ∃ s ids,
        c = ExtCall.postSubmitCall (truncateTweet ptaMaxLength (pyStrip s)) ids := by
  simp only [ptaExecuteCore] at h
  repeat' split at h
  all_goals simp only [Prod.mk.injEq] at h
  all_goals obtain ⟨h1, h2⟩ := h
  all_goals subst h2
  all_goals first
    | exact Or.inl rfl
    | (refine Or.inr ⟨[], rfl, ?_⟩
       simp)
    | (refine Or.inr ⟨_, rfl, ?_⟩
       intro c hc
       simp only [ptaPostTweetViaComposio] at hc
       repeat' split at hc
       all_goals simp only [List.append_eq, List.nil_append, List.mem_singleton] at hc
       all_goals exact ⟨_, _, hc⟩)

/-! ## Witness environments -/

/-- Environment in which chat-skill initialization reports failure and every
other oracle answers trivially. -/
def envChatInitFails : Env :=
  { chatInit := .ok false
    memory := []
    personality := []
    objectives := []
    evalData := fun _ => none
    urlparse := fun _ => {}
    chatCompletion := fun _ => .ok {}
    canGenerate := .ok false
    generateImage := fun _ => .ok {}
    download := fun _ => .ok false
    uploadAction := fun _ => .ok {}
    postAction := fun _ _ => .ok {} }

/-- Environment with a working chat skill but an empty memory store. -/
def envNothingNew : Env :=
  { envChatInitFails with chatInit := .ok true }

/-- Memory record of a previous drawing activity. -/
def drawRecord : ActivityRecord :=
  { activity_type := "DrawActivity", success := true, data := { repr := "[image]" } }

/-- Environment in which every step of `PostRecentMemoriesTweetActivity`
succeeds (one relevant memory, successful completion and post). -/
def envFullSuccess : Env :=
  { chatInit := .ok true
    memory := [drawRecord]
    personality := []
    objectives := []
    evalData := fun _ => none
    urlparse := fun _ => {}
    chatCompletion := fun _ =>
      .ok { success := some true, data := some { content := some "Hello world" } }
    canGenerate := .ok false
    generateImage := fun _ => .ok {}
    download := fun _ => .ok false
    uploadAction := fun _ => .ok {}
    postAction := fun _ _ =>
      .ok { success := some true, data := some { data := some { id := some "123" } } } }

/-- Claim C9: for every input and every behaviour of the external
collaborators (including any of them raising an exception), `execute` of
either activity returns a result with a boolean success flag (the embeddings
are total functions into `ActivityResult`), and every failure result carries
an error message. -/
theorem execute_total_spec (env : Env) (n : Nat) :
    ((prmtExecute env n).1.success = false → (prmtExecute env n).1.error.isSome = true) ∧
    ((ptaExecute env).1.success = false → (ptaExecute env).1.error.isSome = true) := by
  constructor
  · intro hf
    rcases hcore : prmtExecuteCore env n with ⟨res, tr⟩
    rcases res with e | r
    · rw [prmtExecute_err env n e tr hcore] at hf ⊢
      simp
    · rw [prmtExecute_ok env n r tr hcore] at hf ⊢
      exact prmtCore_failure env n r tr hcore hf
  · intro hf
    rcases hcore : ptaExecuteCore env with ⟨res, tr⟩
    rcases res with e | r
    · rw [ptaExecute_err env e tr hcore] at hf ⊢
      simp
    · rw [ptaExecute_ok env r tr hcore] at hf ⊢
      exact ptaCore_failure env r tr hcore hf

/-- Witness for `execute_total_spec`: in the environment where chat-skill
initialization fails, both activities fail and carry an error message. -/
theorem execute_total_spec_witness :
    (prmtExecute envChatInitFails 10).1.error.isSome = true ∧
    (ptaExecute envChatInitFails).1.error.isSome = true :=
  ⟨(execute_total_spec envChatInitFails 10).1 (by decide),
   (execute_total_spec envChatInitFails 10).2 (by decide)⟩

/-- Claim C1: the list of memories passed on to prompt building (and whose
entries are the ones recorded for posting) equals the fetched digest list
minus the previously used entries, with order preserved (a sublist of the
digest list keeping exactly the non-used occurrences); and whenever this
difference is empty, no chat-completion call and no post submission occurs
and the activity returns a success result whose data carries a nothing-new
message. -/
theorem prmt_dedup_spec (env : Env) (n : Nat) :
    ((prmtNew env n).Sublist (prmtAll env n) ∧
      ∀ m, (m ∈ prmtUsed env → (prmtNew env n).count m = 0) ∧
           (m ∉ prmtUsed env → (prmtNew env n).count m = (prmtAll env n).count m)) ∧
    (env.chatInit = Except.ok true → prmtNew env n = [] →
      (prmtExecute env n).1.success = true ∧
      ((prmtExecute env n).1.data_message = some "No recent memories to share." ∨
       (prmtExecute env n).1.data_message = some "No new memories to tweet.") ∧
      (∀ p, ExtCall.chatCompletionCall p ∉ (prmtExecute env n).2) ∧
      (∀ t ids, ExtCall.postSubmitCall t ids ∉ (prmtExecute env n).2)) ∧
    (∀ p, ExtCall.chatCompletionCall p ∈ (prmtExecute env n).2 →
      p = prmtBuildChatPrompt env.personality env.objectives (prmtNew env n)) := by
  refine ⟨⟨List.filter_sublist _, ?_⟩, ?_, ?_⟩
  · intro m
    constructor
    · intro hm
      apply List.count_eq_zero.mpr
      intro hmem
      have h2 := (List.mem_filter.mp hmem).2
      simp only [Bool.not_eq_true, List.elem_iff] at h2
      simp [List.elem_iff, hm] at h2
    · intro hm
      apply List.count_filter
      simp [List.elem_iff, hm]
  · intro hinit hnew
    have hcase :
        prmtExecute env n =
          ({ success := true, data_message := some "No recent memories to share." },
            [ExtCall.chatInitCall]) ∨
        prmtExecute env n =
          ({ success := true, data_message := some "No new memories to tweet." },
            [ExtCall.chatInitCall]) := by
      by_cases hall : (prmtAll env n).isEmpty
      · left
        apply prmtExecute_ok
        unfold prmtExecuteCore
        rw [hinit]
        simp [hall]
      · right
        apply prmtExecute_ok
        unfold prmtExecuteCore
        rw [hinit]
        simp [hall, hnew]
    rcases hcase with hc | hc <;> rw [hc] <;> simp
  · intro p hp
    rcases hcore : prmtExecuteCore env n with ⟨res, tr⟩
    have htr : (prmtExecute env n).2 = tr := by
      rcases res with e | r
      · rw [prmtExecute_err env n e tr hcore]
      · rw [prmtExecute_ok env n r tr hcore]
    rw [htr] at hp
    rcases prmtCore_trace env n res tr hcore with h1 | ⟨rest, h2, h3⟩
    · rw [h1] at hp
      simp at hp
    · rw [h2] at hp
      simp only [List.mem_cons] at hp
      rcases hp with h | h | h
      · simp at h
      · simpa using h
      · exfalso
        rcases h3 _ h with ⟨u, hcq⟩ | ⟨s, ids, hcq⟩ <;> simp at hcq

/-- Witness for `prmt_dedup_spec`: with a working chat skill and an empty
memory store the dedup difference is empty, and the run is a success carrying
a nothing-new message. -/
theorem prmt_dedup_spec_witness :
    (prmtExecute envNothingNew 10).1.success = true ∧
    ((prmtExecute envNothingNew 10).1.data_message = some "No recent memories to share." ∨
     (prmtExecute envNothingNew 10).1.data_message = some "No new memories to tweet.") :=
  ⟨((prmt_dedup_spec envNothingNew 10).2.1 rfl (by decide)).1,
   ((prmt_dedup_spec envNothingNew 10).2.1 rfl (by decide)).2.1⟩

/-- Predicate of the record `_get_memories_used_last_time` actually stops at:
a successful run of this activity whose stored list is non-empty. -/
def usedPred (a : ActivityRecord) : Bool :=
  a.activity_type == "PostRecentMemoriesTweetActivity" && a.success &&
    !a.data.recent_memories_used.isEmpty

theorem usedLoop_eq : ∀ l : List ActivityRecord,
    usedLoop l = ((l.find? usedPred).map (fun a => a.data.recent_memories_used)).getD []
  | [] => by simp [usedLoop]
  | act :: rest => by
    unfold usedLoop
    by_cases h1 : (act.activity_type == "PostRecentMemoriesTweetActivity" && act.success) = true
    · by_cases h2 : act.data.recent_memories_used.isEmpty = true
      · rw [List.find?_cons_of_neg _ (by simp [usedPred, h1, h2])]
        simp only [h1, if_true, h2, if_true]
        exact usedLoop_eq rest
      · rw [List.find?_cons_of_pos _ (by simp [usedPred, h1, h2])]
        simp [h1, h2]
    · rw [List.find?_cons_of_neg _ (by simp [usedPred, h1])]
      simp only [h1, if_false]
      exact usedLoop_eq rest

/-- Definition following the spec's words for claim C2: the dedup set is the
`recent_memories_used` list stored in the data of the immediately preceding
successful run of this activity, empty if there is none. -/
def specUsedLastTime (memory : List ActivityRecord) : List String :=
  ((memory.find? (fun a =>
      a.activity_type == "PostRecentMemoriesTweetActivity" && a.success)).map
    (fun a => a.data.recent_memories_used)).getD []

/-- Claim C2, counterexample: when the immediately preceding successful run
stored no `recent_memories_used` (here: an empty list), the code skips it and
takes the list of an older successful run, so the dedup set is not the one of
the immediately preceding successful run. -/
theorem used_last_time_counterexample :
    getMemoriesUsedLastTime
      [{ activity_type := "PostRecentMemoriesTweetActivity", success := true },
       { activity_type := "PostRecentMemoriesTweetActivity", success := true,
         data := { recent_memories_used := ["DrawActivity => old"] } }] ≠
    specUsedLastTime
      [{ activity_type := "PostRecentMemoriesTweetActivity", success := true },
       { activity_type := "PostRecentMemoriesTweetActivity", success := true,
         data := { recent_memories_used := ["DrawActivity => old"] } }] := by
  decide

/-- Claim C2 (amended): the dedup set used by a run is the
`recent_memories_used` list of the most recent successful run of this
activity, among the 10 most recent records, that stored a non-empty such
list (empty when none exists); a fully successful run (success with no
nothing-new message) stores `recent_memories_used` equal to the digest
entries it used; and no entry of the dedup set is among the entries used by
the current run. -/
theorem used_last_time_amended (memory : List ActivityRecord) (env : Env) (n : Nat) :
    (getMemoriesUsedLastTime memory =
      (((memory.take 10).find? usedPred).map (fun a => a.data.recent_memories_used)).getD [])
    ∧ ((prmtExecute env n).1.success = true → (prmtExecute env n).1.data_message = none →
        (prmtExecute env n).1.data_recent_memories_used = some (prmtNew env n))
    ∧ (∀ m ∈ prmtUsed env, m ∉ prmtNew env n) := by
  refine ⟨?_, ?_, ?_⟩
  · unfold getMemoriesUsedLastTime getRecentActivities
    rw [List.drop_zero]
    exact usedLoop_eq _
  · intro hs hm
    rcases hcore : prmtExecuteCore env n with ⟨res, tr⟩
    rcases res with e | r
    · rw [prmtExecute_err env n e tr hcore] at hs
      simp at hs
    · rw [prmtExecute_ok env n r tr hcore] at hs hm ⊢
      rcases prmtCore_success env n r tr hcore hs with h | ⟨_, hr⟩
      · rw [hm] at h
        simp at h
      · exact hr
  · intro m hm hmem
    have h2 := (List.mem_filter.mp hmem).2
    simp [List.elem_iff, hm] at h2

/-- Witness for `used_last_time_amended`: in the fully successful
environment the result data records exactly the entries used. -/
theorem used_last_time_amended_witness :
    (prmtExecute envFullSuccess 10).1.data_recent_memories_used =
      some (prmtNew envFullSuccess 10) :=
  (used_last_time_amended [] envFullSuccess 10).2.1 (by decide) (by decide)

/-! ## Projection helpers for traces -/

theorem prmtExecute_snd (env : Env) (n : Nat) :
    (prmtExecute env n).2 = (prmtExecuteCore env n).2 := by
  unfold prmtExecute
  rcases prmtExecuteCore env n with ⟨res, tr⟩
  rcases res with e | r <;> rfl

theorem ptaExecute_snd (env : Env) :
    (ptaExecute env).2 = (ptaExecuteCore env).2 := by
  unfold ptaExecute
  rcases ptaExecuteCore env with ⟨res, tr⟩
  rcases res with e | r <;> rfl

theorem truncateTweet_length_le (L : Nat) (h3 : 3 ≤ L) (s : String) :
    (truncateTweet L s).length ≤ L := by
  unfold truncateTweet
  by_cases h : s.length > L
  · rw [if_pos h, String.length_append]
    have hsl : (pySlice s (L - 3)).length = L - 3 := by
      unfold pySlice
      rw [String.length_mk, List.length_take]
      have : s.data.length = s.length := rfl
      omega
    have hd : ("..." : String).length = 3 := by decide
    omega
  · rw [if_neg h]
    omega

/-- Environment in which the completion backend returns a 300-character
tweet text. -/
def envLongTweet : Env :=
  { chatInit := .ok true
    memory := []
    personality := []
    objectives := []
    evalData := fun _ => none
    urlparse := fun _ => {}
    chatCompletion := fun _ =>
      .ok { success := some true,
            data := some { content := some (String.mk (List.replicate 300 'a')) } }
    canGenerate := .ok false
    generateImage := fun _ => .ok {}
    download := fun _ => .ok false
    uploadAction := fun _ => .ok {}
    postAction := fun _ _ => .ok {} }

/-- Claim C5, counterexample: `PostTweetActivity` submits a 300-character
text unchanged to the posting call, exceeding the 280-character platform
limit, because its configured `max_length` is 500. -/
theorem platform_limit_counterexample :
    ExtCall.postSubmitCall (String.mk (List.replicate 300 'a')) [] ∈
      (ptaExecute envLongTweet).2 ∧
    280 < (String.mk (List.replicate 300 'a')).length := by
  exact ⟨by decide, by decide⟩

/-- Claim C5 (amended): every tweet text submitted to the posting call by
`PostRecentMemoriesTweetActivity` has length at most its configured limit of
280 characters (the platform limit), obtained by truncation to `limit - 3`
characters plus an ellipsis when needed; `PostTweetActivity` enforces its own
configured limit of 500 characters in the same way, not the 280-character
platform limit. -/
theorem post_length_amended (env : Env) (n : Nat) :
    (∀ t ids, ExtCall.postSubmitCall t ids ∈ (prmtExecute env n).2 →
      t.length ≤ prmtMaxLength) ∧
    (∀ t ids, ExtCall.postSubmitCall t ids ∈ (ptaExecute env).2 →
      t.length ≤ ptaMaxLength) := by
  constructor
  · intro t ids hmem
    rw [prmtExecute_snd] at hmem
    rcases hcore : prmtExecuteCore env n with ⟨res, tr⟩
    rw [hcore] at hmem
    rcases prmtCore_trace env n res tr hcore with h1 | ⟨rest, h2, h3⟩
    · rw [h1] at hmem
      simp at hmem
    · rw [h2] at hmem
      simp only [List.mem_cons] at hmem
      rcases hmem with h | h | h
      · simp at h
      · simp at h
      · rcases h3 _ h with ⟨u, hcq⟩ | ⟨s, ids2, hcq⟩
        · simp at hcq
        · injection hcq with ht hids
          subst ht
          exact truncateTweet_length_le prmtMaxLength (by decide) _
  · intro t ids hmem
    rw [ptaExecute_snd] at hmem
    rcases hcore : ptaExecuteCore env with ⟨res, tr⟩
    rw [hcore] at hmem
    rcases ptaCore_trace env res tr hcore with h1 | ⟨rest, h2, h3⟩
    · rw [h1] at hmem
      simp at hmem
    · rw [h2] at hmem
      simp only [List.mem_cons] at hmem
      rcases hmem with h | h | h
      · simp at h
      · simp at h
      · rcases h3 _ h with ⟨s, ids2, hcq⟩
        injection hcq with ht hids
        subst ht
        exact truncateTweet_length_le ptaMaxLength (by decide) _

/-- Witness for `post_length_amended`: the fully successful run submits the
text "Hello world", whose length is within the 280-character limit. -/
theorem post_length_amended_witness :
    ("Hello world" : String).length ≤ prmtMaxLength :=
  (post_length_amended envFullSuccess 10).1 "Hello world" [] (by decide)

theorem extractDrawingUrls_eq (ev : String → Option EvalDict)
    (up : String → ParsedUrl) : ∀ ms : List String,
    extractDrawingUrls ev up ms = ms.filterMap (extractOne ev up)
  | [] => rfl
  | m :: rest => by
    unfold extractDrawingUrls
    rw [List.filterMap_cons]
    cases h : extractOne ev up m <;>
      simp [h, extractDrawingUrls_eq ev up rest]

/-- Claim C6: URL extraction considers only entries with the
`DrawActivity =>` prefix; an entry whose embedded data fails to parse is
skipped without raising, the remaining entries still being processed (the
result is the independent per-entry filter-map); an embedded
`image_data.url` is returned exactly when its parsed form has both a scheme
and a host, and rejected when either is missing. -/
theorem extract_urls_spec (ev : String → Option EvalDict) (up : String → ParsedUrl)
    (ms : List String) :
    extractDrawingUrls ev up ms = ms.filterMap (extractOne ev up) ∧
    (∀ m, pyStartsWith "DrawActivity =>" m = false → extractOne ev up m = none) ∧
    (∀ m piece, pyStartsWith "DrawActivity =>" m = true →
      (pySplitArrow m)[1]? = some piece → ev (pyStrip piece) = none →
      extractOne ev up m = none) ∧
    (∀ m piece d idata url, pyStartsWith "DrawActivity =>" m = true →
      (pySplitArrow m)[1]? = some piece → ev (pyStrip piece) = some d →
      d.image_data = some idata → idata.url = some url →
      extractOne ev up m =
        if (up url).scheme ≠ "" ∧ (up url).netloc ≠ "" then some url else none) ∧
    (∀ m url, m ∈ ms → extractOne ev up m = some url →
      url ∈ extractDrawingUrls ev up ms) ∧
    (∀ url ∈ extractDrawingUrls ev up ms, ∃ m ∈ ms, extractOne ev up m = some url) := by
  refine ⟨extractDrawingUrls_eq ev up ms, ?_, ?_, ?_, ?_, ?_⟩
  · intro m hm
    unfold extractOne
    simp [hm]
  · intro m piece h1 h2 h3
    unfold extractOne
    simp [h1, h2, h3]
  · intro m piece d idata url h1 h2 h3 h4 h5
    unfold extractOne
    simp only [h1, if_true, h2, h3, h4, h5]
    by_cases hs : (up url).scheme = "" <;> by_cases hn : (up url).netloc = "" <;>
      simp [hs, hn]
  · intro m url hm hone
    rw [extractDrawingUrls_eq ev up ms]
    exact List.mem_filterMap.mpr ⟨m, hm, hone⟩
  · intro url hurl
    rw [extractDrawingUrls_eq ev up ms] at hurl
    obtain ⟨m, hm, hone⟩ := List.mem_filterMap.mp hurl
    exact ⟨m, hm, hone⟩

/-- Witness for `extract_urls_spec`: a digest list with one well-formed
drawing entry, one entry with an invalid URL, and one unparsable entry
yields exactly the well-formed URL. -/
theorem extract_urls_spec_witness :
    extractOne
      (fun s => if s = "good" then some { image_data := some { url := some "http://h/p" } }
        else if s = "bad" then some { image_data := some { url := some "nohost" } }
        else none)
      (fun u => if u = "http://h/p" then { scheme := "http", netloc := "h" } else {})
      "DrawActivity => good" = some "http://h/p" := by
  have h := (extract_urls_spec
      (fun s => if s = "good" then some { image_data := some { url := some "http://h/p" } }
        else if s = "bad" then some { image_data := some { url := some "nohost" } }
        else none)
      (fun u => if u = "http://h/p" then { scheme := "http", netloc := "h" } else {})
      ["DrawActivity => good"]).2.2.2.1 "DrawActivity => good" " good"
      { image_data := some { url := some "http://h/p" } }
      { url := some "http://h/p" } "http://h/p"
      (by decide) (by decide) (by decide) (by decide) (by decide)
  rw [h]
  decide

/-- Claim C7: for every response returned by the post-submission call, in
both posting operations (`XAPISkill.post_tweet` and
`PostTweetActivity._post_tweet_via_composio`): a response whose success
indicator (key `success`, falling back to the misspelt `successfull`) is
missing or not truthy yields a failure result carrying an error message —
in particular when both spellings are absent, the error message is the
response's `error` field or the default `Unknown or missing success key` —
and only a truthy success indicator yields a success result, which carries
the post id extracted from the nested `data.data.id` of the response. -/
theorem post_response_spec (skill : XAPISkill) (env : Env) (text : String)
    (urls : List String) (resp : ComposioResponse)
    (hcp : skill.canPost = true)
    (hresp : env.postAction text (urls.filterMap (uploadMedia env)) = Except.ok resp) :
    ((getOrKey resp.success resp.successfull ≠ some true →
        (xPostTweet skill env text urls).1.success = false ∧
        (xPostTweet skill env text urls).1.error.isSome = true) ∧
     (getOrKey resp.success resp.successfull = some true →
        (xPostTweet skill env text urls).1.success = true ∧
        (xPostTweet skill env text urls).1.tweet_id =
          (resp.data.bind RespData.data).bind InnerData.id) ∧
     (resp.success = none ∧ resp.successfull = none →
        (xPostTweet skill env text urls).1 =
          { success := false,
            error := some (resp.error.getD "Unknown or missing success key") })) ∧
    (∀ resp2 ids, env.postAction text ids = Except.ok resp2 →
      ((getOrKey resp2.success resp2.successfull ≠ some true →
          (ptaPostTweetViaComposio env text ids).1.success = false ∧
          (ptaPostTweetViaComposio env text ids).1.error.isSome = true) ∧
       (getOrKey resp2.success resp2.successfull = some true →
          (ptaPostTweetViaComposio env text ids).1.success = true ∧
          (ptaPostTweetViaComposio env text ids).1.tweet_id =
            (resp2.data.bind RespData.data).bind InnerData.id))) := by
  constructor
  · have hx : xPostTweet skill env text urls =
        (match getOrKey resp.success resp.successfull with
          | some true =>
            ({ success := true
               tweet_id := (resp.data.bind RespData.data).bind InnerData.id
               content := some text
               media_count := (urls.filterMap (uploadMedia env)).length },
             { skill with posts_count := skill.posts_count + 1 },
             urls.map ExtCall.mediaUploadCall ++
               [ExtCall.postSubmitCall text (urls.filterMap (uploadMedia env))])
          | _ =>
            ({ success := false
               error := some (resp.error.getD "Unknown or missing success key") },
             skill, urls.map ExtCall.mediaUploadCall ++
               [ExtCall.postSubmitCall text (urls.filterMap (uploadMedia env))])) := by
      simp only [xPostTweet, hcp, Bool.not_true, Bool.false_eq_true, if_false, hresp]
    refine ⟨?_, ?_, ?_⟩
    · intro hne
      rw [hx]
      rcases hg : getOrKey resp.success resp.successfull with _ | b
      · simp
      · cases b
        · simp
        · exact absurd hg hne
    · intro heq
      rw [hx, heq]
      exact ⟨rfl, rfl⟩
    · intro ⟨h1, h2⟩
      rw [hx]
      have : getOrKey resp.success resp.successfull = none := by
        simp [getOrKey, h1, h2]
      rw [this]
  · intro resp2 ids hresp2
    have hp : ptaPostTweetViaComposio env text ids =
        (match getOrKey resp2.success resp2.successfull with
          | some true =>
            ({ success := true,
               tweet_id := (resp2.data.bind RespData.data).bind InnerData.id },
             [ExtCall.postSubmitCall text ids])
          | _ =>
            ({ success := false,
               error := some (resp2.error.getD "Unknown or missing success key") },
             [ExtCall.postSubmitCall text ids])) := by
      unfold ptaPostTweetViaComposio
      rw [hresp2]
    constructor
    · intro hne
      rw [hp]
      rcases hg : getOrKey resp2.success resp2.successfull with _ | b
      · simp
      · cases b
        · simp
        · exact absurd hg hne
    · intro heq
      rw [hp, heq]
      exact ⟨rfl, rfl⟩

/-- Witness for `post_response_spec`: in the fully successful environment the
post succeeds and the tweet id is extracted from the nested response data. -/
theorem post_response_spec_witness :
    (xPostTweet (mkXAPISkill { enabled := some true }) envFullSuccess "hi" []).1.success = true ∧
    (xPostTweet (mkXAPISkill { enabled := some true }) envFullSuccess "hi" []).1.tweet_id =
      some "123" := by
  have h := ((post_response_spec (mkXAPISkill { enabled := some true }) envFullSuccess "hi" []
      { success := some true, data := some { data := some { id := some "123" } } }
      (by decide) rfl).1.2.1 (by decide))
  exact ⟨h.1, h.2.trans (by decide)⟩

/-- Claim C8: when posting is allowed, `XAPISkill.post_tweet` attempts one
media upload per URL and then always submits the tweet with exactly the
media ids those uploads produced; when every upload fails (yields no media
id) the tweet is still submitted text-only, with an empty media id list —
the media step never aborts the posting.  Likewise, `PostTweetActivity`'s
media step returns normally with an empty media id list when every download
fails, so its posting step still runs. -/
theorem media_degrade_spec (skill : XAPISkill) (env : Env) (text : String)
    (urls : List String) (hcp : skill.canPost = true) :
    ((xPostTweet skill env text urls).2.2 =
      urls.map ExtCall.mediaUploadCall ++
        [ExtCall.postSubmitCall text (urls.filterMap (uploadMedia env))]) ∧
    ((∀ u ∈ urls, uploadMedia env u = none) →
      ExtCall.postSubmitCall text [] ∈ (xPostTweet skill env text urls).2.2) ∧
    (∀ tweetText pers img, env.canGenerate = Except.ok true →
      env.generateImage (ptaBuildImagePrompt tweetText pers) = Except.ok img →
      (∀ v, env.download v = Except.ok false) →
      ∃ p, ptaGenerateImageForTweet env tweetText pers = Except.ok (p, [])) := by
  have htr : (xPostTweet skill env text urls).2.2 =
      urls.map ExtCall.mediaUploadCall ++
        [ExtCall.postSubmitCall text (urls.filterMap (uploadMedia env))] := by
    simp only [xPostTweet, hcp, Bool.not_true, Bool.false_eq_true, if_false]
    rcases env.postAction text (urls.filterMap (uploadMedia env)) with e | resp
    · rfl
    · rcases hg : getOrKey resp.success resp.successfull with _ | b
      · simp [hg]
      · cases b <;> simp [hg]
  refine ⟨htr, ?_, ?_⟩
  · intro hall
    rw [htr, List.filterMap_eq_nil_iff.mpr hall]
    simp
  · intro tweetText pers img hcg hgi hdl
    simp only [ptaGenerateImageForTweet, hcg, hgi]
    rcases img.success with _ | b
    · exact ⟨none, rfl⟩
    · rcases hu : img.image_data.bind ImgData.url with _ | u
      · cases b <;> simp [hu]
      · cases b
        · simp [hu]
        · by_cases he : u = ""
          · simp [hu, he]
          · refine ⟨some (ptaBuildImagePrompt tweetText pers), ?_⟩
            simp [uploadImageToTwitter, hdl, he]

/-- Witness for `media_degrade_spec`: with one image URL whose download
fails, the tweet is still submitted with an empty media id list. -/
theorem media_degrade_spec_witness :
    ExtCall.postSubmitCall "hi" [] ∈
      (xPostTweet (mkXAPISkill { enabled := some true }) envFullSuccess "hi"
        ["http://x/i.png"]).2.2 :=
  (media_degrade_spec (mkXAPISkill { enabled := some true }) envFullSuccess "hi"
    ["http://x/i.png"] (by decide)).2.1
    (by
      intro u hu
      rw [List.mem_singleton] at hu
      subst hu
      decide)

/-- Claim C10: `XAPISkill.__init__` defaults `rate_limit` to 100 and starts
`posts_count` at 0; `post_tweet` returns a failure without attempting any
media upload or post submission (empty call trace) exactly when the skill is
disabled or `posts_count` has reached `rate_limit`; `posts_count` increases
by exactly one on a successful post and is unchanged on a failure. -/
theorem rate_limit_spec (config : XConfig) (skill : XAPISkill) (env : Env)
    (text : String) (urls : List String) :
    ((mkXAPISkill config).rate_limit = config.rate_limit.getD 100 ∧
      (mkXAPISkill config).posts_count = 0) ∧
    (skill.canPost = false ↔
      (skill.enabled = false ∨ skill.rate_limit ≤ skill.posts_count)) ∧
    (skill.canPost = false →
      xPostTweet skill env text urls =
        ({ success := false, error := some "Rate limit exceeded or skill disabled" },
         skill, [])) ∧
    ((xPostTweet skill env text urls).1.success = true →
      (xPostTweet skill env text urls).2.1.posts_count = skill.posts_count + 1) ∧
    ((xPostTweet skill env text urls).1.success = false →
      (xPostTweet skill env text urls).2.1.posts_count = skill.posts_count) := by
  refine ⟨⟨rfl, rfl⟩, ?_, ?_, ?_, ?_⟩
  · unfold XAPISkill.canPost
    rcases hb : skill.enabled <;> simp [hb]
  · intro hcp
    unfold xPostTweet
    rw [if_pos (by simp [hcp])]
  · intro hs
    by_cases hcp : skill.canPost = true
    · have hbase : xPostTweet skill env text urls =
          (match env.postAction text (urls.filterMap (uploadMedia env)) with
            | Except.error e =>
              ({ success := false, error := some e }, skill,
               urls.map ExtCall.mediaUploadCall ++
                 [ExtCall.postSubmitCall text (urls.filterMap (uploadMedia env))])
            | Except.ok resp =>
              match getOrKey resp.success resp.successfull with
              | some true =>
                ({ success := true
                   tweet_id := (resp.data.bind RespData.data).bind InnerData.id
                   content := some text
                   media_count := (urls.filterMap (uploadMedia env)).length },
                 { skill with posts_count := skill.posts_count + 1 },
                 urls.map ExtCall.mediaUploadCall ++
                   [ExtCall.postSubmitCall text (urls.filterMap (uploadMedia env))])
              | _ =>
                ({ success := false
                   error := some (resp.error.getD "Unknown or missing success key") },
                 skill, urls.map ExtCall.mediaUploadCall ++
                   [ExtCall.postSubmitCall text (urls.filterMap (uploadMedia env))])) := by
        simp only [xPostTweet, hcp, Bool.not_true, Bool.false_eq_true, if_false]
      rw [hbase] at hs ⊢
      rcases hpa : env.postAction text (urls.filterMap (uploadMedia env)) with e | resp
      · rw [hpa] at hs
        simp at hs
      · rw [hpa] at hs
        rcases hg : getOrKey resp.success resp.successfull with _ | b
        · simp [hg] at hs
        · cases b
          · simp [hg] at hs
          · simp [hg]
    · have hx : xPostTweet skill env text urls =
          ({ success := false, error := some "Rate limit exceeded or skill disabled" },
           skill, []) := by
        unfold xPostTweet
        rw [if_pos (by simp [eq_false_of_ne_true hcp])]
      rw [hx] at hs
      simp at hs
  · intro hs
    by_cases hcp : skill.canPost = true
    · have hbase : xPostTweet skill env text urls =
          (match env.postAction text (urls.filterMap (uploadMedia env)) with
            | Except.error e =>
              ({ success := false, error := some e }, skill,
               urls.map ExtCall.mediaUploadCall ++
                 [ExtCall.postSubmitCall text (urls.filterMap (uploadMedia env))])
            | Except.ok resp =>
              match getOrKey resp.success resp.successfull with
              | some true =>
                ({ success := true
                   tweet_id := (resp.data.bind RespData.data).bind InnerData.id
                   content := some text
                   media_count := (urls.filterMap (uploadMedia env)).length },
                 { skill with posts_count := skill.posts_count + 1 },
                 urls.map ExtCall.mediaUploadCall ++
                   [ExtCall.postSubmitCall text (urls.filterMap (uploadMedia env))])
              | _ =>
                ({ success := false
                   error := some (resp.error.getD "Unknown or missing success key") },
                 skill, urls.map ExtCall.mediaUploadCall ++
                   [ExtCall.postSubmitCall text (urls.filterMap (uploadMedia env))])) := by
        simp only [xPostTweet, hcp, Bool.not_true, Bool.false_eq_true, if_false]
      rw [hbase] at hs ⊢
      rcases hpa : env.postAction text (urls.filterMap (uploadMedia env)) with e | resp
      · rfl
      · rcases hg : getOrKey resp.success resp.successfull with _ | b
        · simp [hg]
        · cases b
          · simp [hg]
          · rw [hpa] at hs
            simp [hg] at hs
    · have hx : xPostTweet skill env text urls =
          ({ success := false, error := some "Rate limit exceeded or skill disabled" },
           skill, []) := by
        unfold xPostTweet
        rw [if_pos (by simp [eq_false_of_ne_true hcp])]
      rw [hx]

/-- Witness for `rate_limit_spec`: a disabled skill posts nothing (failure,
unchanged state, empty call trace), and a successful post in the working
environment bumps the counter from 0 to 1. -/
theorem rate_limit_spec_witness :
    xPostTweet (mkXAPISkill {}) envFullSuccess "hi" [] =
      ({ success := false, error := some "Rate limit exceeded or skill disabled" },
       mkXAPISkill {}, []) ∧
    (xPostTweet (mkXAPISkill { enabled := some true }) envFullSuccess "hi" []).2.1.posts_count =
      (mkXAPISkill { enabled := some true }).posts_count + 1 :=
  ⟨(rate_limit_spec {} (mkXAPISkill {}) envFullSuccess "hi" []).2.2.1 (by decide),
   (rate_limit_spec {} (mkXAPISkill { enabled := some true }) envFullSuccess "hi" []).2.2.2.1
     (by decide)⟩
